import Mathlib

set_option autoImplicit false

/-! Shallow embedding of the log-etw crate: the provider registry and level map
    (src/logger.rs), the ETW record encoder (src/etw.rs) and the user_events
    record encoder (src/user_events.rs).  Machine integers are modelled as Nat
    or Int; fallible collaborators return Option.  Compile-time cargo features
    (kv_unstable, kv_unstable_json, spans) are modelled as explicit booleans. -/

/-- Facade levels of the log crate (log::Level). -/
inductive LogLevel
| Error
| Warn
| Info
| Debug
| Trace
deriving DecidableEq

/-- log::Level as u8: the log crate numbers Error=1 .. Trace=5. -/
def LogLevel.toU8 : LogLevel → Nat
| .Error => 1
| .Warn => 2
| .Info => 3
| .Debug => 4
| .Trace => 5

/-- log::Level::as_str. -/
def LogLevel.as_str : LogLevel → String
| .Error => "ERROR"
| .Warn => "WARN"
| .Info => "INFO"
| .Debug => "DEBUG"
| .Trace => "TRACE"

/-- Native levels of the tracelogging crate (tracelogging::Level). -/
inductive TlLevel
| LogAlways
| Critical
| Error
| Warning
| Informational
| Verbose
deriving DecidableEq

/-- tracelogging::Level::as_int: the ETW level constants. -/
def TlLevel.as_int : TlLevel → Nat
| .LogAlways => 0
| .Critical => 1
| .Error => 2
| .Warning => 3
| .Informational => 4
| .Verbose => 5

/-- src/logger.rs map_level: facade level to native level. -/
def map_level : LogLevel → Nat
| .Error => TlLevel.Error.as_int
| .Warn => TlLevel.Warning.as_int
| .Info => TlLevel.Informational.as_int
| .Debug => TlLevel.Verbose.as_int
| .Trace => TlLevel.Verbose.as_int + 1

/-- tracelogging::Guid.  Guid::from_name derives an id from a provider name by
    hashing; the hash is kept symbolic as an injective constructor. -/
inductive Guid
| fromName (name : String)
| explicitId (value : Nat)
deriving DecidableEq

/-- src/logger.rs ProviderGroup. -/
inductive ProviderGroup
| Unset
| Windows (g : Guid)
| Linux (name : String)
deriving DecidableEq

/-- src/logger.rs ExporterConfig. -/
structure ExporterConfig where
  default_provider_name : String
  default_provider_id : Guid
  default_provider_group : ProviderGroup
  json : Bool
  common_schema : Bool
deriving DecidableEq

/-- Compile-time cargo features consulted by the encoders, modelled as data. -/
structure Features where
  kv_unstable : Bool
  kv_unstable_json : Bool
  spans : Bool
deriving DecidableEq

/-- One dynamically-typed structured value of log::kv::Value.  Each constructor
    names the visit method the value dispatches to; vOther carries the Display
    rendering used by visit_any; vErr is a value whose visit reports
    log::kv::Error without reaching any visit method. -/
inductive KvValue
| vBool (b : Bool)
| vU64 (n : Nat)
| vI64 (i : Int)
| vU128 (n : Nat)
| vI128 (i : Int)
| vF64 (x : Float)
| vStr (s : String)
| vBorrowedStr (s : String)
| vChar (c : Char)
| vOther (display : String)
| vErr

/-- A log::Record: level, target, the rendered format_args payload, structured
    key-values, and source-location metadata. -/
structure Record where
  level : LogLevel
  target : String
  args : String
  key_values : List (String × KvValue)
  module_path : Option String
  file : Option String
  line : Option Nat

/-- A std::time::SystemTime together with the calendar decomposition chrono
    extracts from it and its seconds since the unix epoch. -/
structure SystemTime where
  year : Nat
  month : Nat
  day : Nat
  hour : Nat
  minute : Nat
  second : Nat
  millisecond : Nat
  unix_secs : Nat
deriving DecidableEq

/-- src/etw.rs Win32SystemTime: the 8-element small-integer array
    year/month/0/day/hour/minute/second/millisecond. -/
def win32SystemTime (t : SystemTime) : List Nat :=
  [t.year, t.month, 0, t.day, t.hour, t.minute, t.second, t.millisecond]

/-- Zero-pad a numeral to two digits. -/
def pad2 (n : Nat) : String :=
  if n < 10 then "0" ++ toString n else toString n

/-- Zero-pad a numeral to four digits. -/
def pad4 (n : Nat) : String :=
  if n < 10 then "000" ++ toString n
  else if n < 100 then "00" ++ toString n
  else if n < 1000 then "0" ++ toString n
  else toString n

/-- chrono::DateTime::to_rfc3339 of a UTC timestamp (external collaborator,
    modelled as a plain rendering of the calendar fields). -/
def toRfc3339 (t : SystemTime) : String :=
  pad4 t.year ++ "-" ++ pad2 t.month ++ "-" ++ pad2 t.day ++ "T" ++
    pad2 t.hour ++ ":" ++ pad2 t.minute ++ ":" ++ pad2 t.second ++ "+00:00"

/-- to_le_bytes of the low 8*k bits of a value: little-endian byte list. -/
def leBytes : Nat → Nat → List Nat
| 0, _ => []
| k + 1, n => n % 256 :: leBytes k (n / 256)

/-- Recombine a little-endian byte list into one machine word, as the
    little-endian targets of this crate reinterpret 8 raw bytes as a u64. -/
def leWord (bs : List Nat) : Nat :=
  bs.foldr (fun b acc => b + 256 * acc) 0

/-- u128::to_le_bytes. -/
def u128_to_le_bytes (n : Nat) : List Nat := leBytes 16 n

/-- i128::to_le_bytes: the two's-complement little-endian byte representation. -/
def i128_to_le_bytes (i : Int) : List Nat :=
  leBytes 16 (Int.toNat (i % (2 : Int) ^ 128))

/-- The two-element u64 slice built in visit_u128 / visit_pair: the 16
    little-endian bytes of the value reinterpreted as two 64-bit words. -/
def u128_words (n : Nat) : List Nat :=
  [leWord ((u128_to_le_bytes n).take 8), leWord ((u128_to_le_bytes n).drop 8)]

/-- The two-element u64 slice built in visit_i128 / visit_pair. -/
def i128_words (i : Int) : List Nat :=
  [leWord ((i128_to_le_bytes i).take 8), leWord ((i128_to_le_bytes i).drop 8)]

/-- Modelled from the spec: decoding the two-word sequence back as
    little-endian (the round-trip direction the spec states). -/
def decode_two_words_le (ws : List Nat) : Nat :=
  match ws with
  | [lo, hi] => lo + 2 ^ 64 * hi
  | _ => 0

/-- Modelled from the spec: decoding the two-word sequence back as a signed
    two's-complement 128-bit value. -/
def decode_two_words_le_signed (ws : List Nat) : Int :=
  let n := decode_two_words_le ws
  if n < 2 ^ 127 then (n : Int) else (n : Int) - 2 ^ 128

/-- An opentelemetry span context: span_id is a u64 (0 = SpanId::INVALID),
    trace_id a u128. -/
structure SpanContext where
  span_id : Nat
  trace_id : Nat
deriving DecidableEq

/-- Bytes of format of a value as lowercase hex, space-padded on the left to
    the given width, as written by the {:16x} and {:32x} format strings. -/
def hexPadBytes (width n : Nat) : List Nat :=
  let ds := Nat.toDigits 16 n
  (List.replicate (width - ds.length) ' ' ++ ds).map Char.toNat

/-- The (span_id bytes, trace_id bytes) pair produced by the
    get_active_span closure in both Common-Schema encoders: hex renderings for
    a valid (non-zero) span id, raw all-zero byte arrays otherwise. -/
def get_active_ids (ctx : SpanContext) : List Nat × List Nat :=
  if ctx.span_id ≠ 0 then
    (hexPadBytes 16 ctx.span_id, hexPadBytes 32 ctx.trace_id)
  else
    (List.replicate 16 0, List.replicate 32 0)

/-- tracelogging::OutType values used by src/etw.rs. -/
inductive OutType
| DateTimeUtc
| Utf8
| String
| Boolean
| Signed
| Unsigned
| Hex
| Json
deriving DecidableEq

/-- tracelogging Opcode; only Info is ever used. -/
inductive Opcode
| Info
deriving DecidableEq

/-- The value of one field handed to a tracelogging EventBuilder add call.
    add_str8 is polymorphic over AsRef of u8: vStr8 records a string argument,
    vBytes a raw byte-array argument (the trace/span id buffers). -/
inductive FieldValue
| vSystemtime (st : List Nat)
| vStr8 (s : String)
| vBytes (bytes : List Nat)
| vBool32 (value : Int)
| vU8 (value : Nat)
| vU16 (value : Nat)
| vU32 (value : Nat)
| vU64 (value : Nat)
| vI64 (value : Int)
| vF64 (value : Float)
| vU64Seq (words : List Nat)
| vStruct (field_count : Nat)

/-- One field of a tracelogging event: name, value, out-type, field tag. -/
structure EventField where
  name : String
  value : FieldValue
  out : OutType
  tag : Nat

/-- tracelogging_dynamic::EventBuilder: event name, level, keyword, opcode and
    the ordered fields added so far. -/
structure EventBuilder where
  name : String
  level : Nat
  keyword : Nat
  op : Opcode
  fields : List EventField

/-- EventBuilder::reset: start a fresh event. -/
def EventBuilder.reset (_eb : EventBuilder) (name : String) (level : Nat)
    (keyword : Nat) (_tag : Nat) : EventBuilder :=
  ⟨name, level, keyword, .Info, []⟩

/-- EventBuilder::opcode. -/
def EventBuilder.opcode (eb : EventBuilder) (o : Opcode) : EventBuilder :=
  { eb with op := o }

/-- Append one field, as every add call does. -/
def EventBuilder.addField (eb : EventBuilder) (f : EventField) : EventBuilder :=
  { eb with fields := eb.fields ++ [f] }

/-- EventBuilder::add_systemtime. -/
def EventBuilder.add_systemtime (eb : EventBuilder) (name : String)
    (st : List Nat) (out : OutType) (tag : Nat) : EventBuilder :=
  eb.addField ⟨name, .vSystemtime st, out, tag⟩

/-- EventBuilder::add_str8 with a string argument. -/
def EventBuilder.add_str8 (eb : EventBuilder) (name : String) (value : String)
    (out : OutType) (tag : Nat) : EventBuilder :=
  eb.addField ⟨name, .vStr8 value, out, tag⟩

/-- EventBuilder::add_str8 with a raw byte-array argument. -/
def EventBuilder.add_str8_bytes (eb : EventBuilder) (name : String)
    (value : List Nat) (out : OutType) (tag : Nat) : EventBuilder :=
  eb.addField ⟨name, .vBytes value, out, tag⟩

/-- EventBuilder::add_bool32. -/
def EventBuilder.add_bool32 (eb : EventBuilder) (name : String) (value : Int)
    (out : OutType) (tag : Nat) : EventBuilder :=
  eb.addField ⟨name, .vBool32 value, out, tag⟩

/-- EventBuilder::add_u8. -/
def EventBuilder.add_u8 (eb : EventBuilder) (name : String) (value : Nat)
    (out : OutType) (tag : Nat) : EventBuilder :=
  eb.addField ⟨name, .vU8 value, out, tag⟩

/-- EventBuilder::add_u16. -/
def EventBuilder.add_u16 (eb : EventBuilder) (name : String) (value : Nat)
    (out : OutType) (tag : Nat) : EventBuilder :=
  eb.addField ⟨name, .vU16 value, out, tag⟩

/-- EventBuilder::add_u32. -/
def EventBuilder.add_u32 (eb : EventBuilder) (name : String) (value : Nat)
    (out : OutType) (tag : Nat) : EventBuilder :=
  eb.addField ⟨name, .vU32 value, out, tag⟩

/-- EventBuilder::add_u64. -/
def EventBuilder.add_u64 (eb : EventBuilder) (name : String) (value : Nat)
    (out : OutType) (tag : Nat) : EventBuilder :=
  eb.addField ⟨name, .vU64 value, out, tag⟩

/-- EventBuilder::add_i64. -/
def EventBuilder.add_i64 (eb : EventBuilder) (name : String) (value : Int)
    (out : OutType) (tag : Nat) : EventBuilder :=
  eb.addField ⟨name, .vI64 value, out, tag⟩

/-- EventBuilder::add_f64. -/
def EventBuilder.add_f64 (eb : EventBuilder) (name : String) (value : Float)
    (out : OutType) (tag : Nat) : EventBuilder :=
  eb.addField ⟨name, .vF64 value, out, tag⟩

/-- EventBuilder::add_u64_sequence. -/
def EventBuilder.add_u64_sequence (eb : EventBuilder) (name : String)
    (words : List Nat) (out : OutType) (tag : Nat) : EventBuilder :=
  eb.addField ⟨name, .vU64Seq words, out, tag⟩

/-- EventBuilder::add_struct: declares a nested group and its field count. -/
def EventBuilder.add_struct (eb : EventBuilder) (name : String)
    (field_count : Nat) (tag : Nat) : EventBuilder :=
  eb.addField ⟨name, .vStruct field_count, .Signed, tag⟩

/-- src/etw.rs ValueVisitor: the one field its visit method writes for a
    value, or none when the value's visit reports an error before reaching any
    visit method (vErr).  Each visit method performs exactly one add call. -/
def etwVisitField (key_name : String) : KvValue → Option EventField
| .vBool b => some ⟨key_name, .vBool32 (if b then 1 else 0), .Boolean, 0⟩
| .vU64 n => some ⟨key_name, .vU64 n, .Unsigned, 0⟩
| .vI64 i => some ⟨key_name, .vI64 i, .Signed, 0⟩
| .vU128 n => some ⟨key_name, .vU64Seq (u128_words n), .Hex, 0⟩
| .vI128 i => some ⟨key_name, .vU64Seq (i128_words i), .Hex, 0⟩
| .vF64 x => some ⟨key_name, .vF64 x, .Signed, 0⟩
| .vStr s => some ⟨key_name, .vStr8 s, .String, 0⟩
| .vBorrowedStr s => some ⟨key_name, .vStr8 s, .String, 0⟩
| .vChar c => some ⟨key_name, .vU8 (c.toNat % 256), .String, 0⟩
| .vOther display => some ⟨key_name, .vStr8 display, .String, 0⟩
| .vErr => none

/-- src/etw.rs KvVisitor::visit_pair: visit the value once, swallow any
    visitation error (the let _ binding) and keep going. -/
def etwVisitPair (eb : EventBuilder) (key : String) (v : KvValue) : EventBuilder :=
  match etwVisitField key v with
  | some f => eb.addField f
  | none => eb

/-- src/etw.rs ProviderWrapper::write_record.  os_enabled is the OS-side
    subscription predicate behind tracelogging provider.enabled(level, keyword);
    json_encode is serde_json::to_string over the key-value map; the returned
    list holds every finished event handed to EventBuilder::write. -/
def etw_write_record (os_enabled : Nat → Nat → Bool) (feats : Features)
    (json_encode : List (String × KvValue) → Option String)
    (timestamp : SystemTime) (event_name : String) (keyword : Nat)
    (record : Record) (exporter_config : ExporterConfig)
    (ctx : SpanContext) : List EventBuilder :=
  let level := map_level record.level
  if !(os_enabled level keyword) then [] else
  let eb : EventBuilder := ⟨"", 0, 0, .Info, []⟩
  if !exporter_config.common_schema then
    let eb := (eb.reset event_name level keyword 0).opcode .Info
    let eb := eb.add_systemtime "time" (win32SystemTime timestamp) .DateTimeUtc 0
    let payload := record.args
    let eb := eb.add_str8 "Payload" payload .Utf8 0
    let eb :=
      if feats.kv_unstable || feats.kv_unstable_json then
        if feats.kv_unstable_json && exporter_config.json then
          match json_encode record.key_values with
          | some json => eb.add_str8 "Keys / Values" json .Json 0
          | none => eb
        else
          record.key_values.foldl (fun e kv => etwVisitPair e kv.1 kv.2) eb
      else eb
    let eb :=
      match record.module_path with
      | some module_path => eb.add_str8 "Module Path" module_path .Utf8 0
      | none => eb
    let eb :=
      match record.file with
      | some file =>
        let eb := eb.add_str8 "File" file .Utf8 0
        match record.line with
        | some line => eb.add_u32 "Line" line .Unsigned 0
        | none => eb
      | none => eb
    [eb]
  else
    let eb := (eb.reset event_name level keyword 0).opcode .Info
    let (parta_field_count, span_id, trace_id) :=
      if feats.spans then
        let ids := get_active_ids ctx
        ((2 : Nat), (some ids.1 : Option (List Nat)), (some ids.2 : Option (List Nat)))
      else
        ((1 : Nat), (none : Option (List Nat)), (none : Option (List Nat)))
    let eb := eb.add_u16 "__csver__" 0x0401 .Signed 0
    let eb := eb.add_struct "PartA" parta_field_count 0
    let time : String := toRfc3339 timestamp
    let eb := eb.add_str8 "time" time .Utf8 0
    let eb :=
      match trace_id, span_id with
      | some tid, some sid =>
        ((eb.add_struct "ext_dt" 2 0).add_str8_bytes "traceId" tid .Utf8 0).add_str8_bytes
          "spanId" sid .Utf8 0
      | _, _ => eb
    let eb := eb.add_struct "PartB" 5 0
    let eb := eb.add_str8 "_typeName" "Log" .Utf8 0
    let eb := eb.add_str8 "name" event_name .Utf8 0
    let eb := eb.add_str8 "eventTime" (toRfc3339 timestamp) .Utf8 0
    let eb := eb.add_u8 "severityNumber" record.level.toU8 .Unsigned 0
    let eb := eb.add_str8 "severityText" record.level.as_str .Utf8 0
    let eb := eb.add_struct "PartC" 1 0
    let eb := eb.add_str8 "Payload" record.args .Utf8 0
    [eb]

/-- eventheader::FieldFormat values used by src/user_events.rs. -/
inductive FieldFormat
| Default
| Time
| Boolean
| SignedInt
| HexInt
| Float
| String8
deriving DecidableEq

/-- The value of one field handed to an eventheader EventBuilder add call.
    add_value is generic; one constructor per argument type used by the
    source.  add_str is polymorphic over AsRef of u8: vStr records a string
    argument, vBytes a raw byte-array argument. -/
inductive UeFieldValue
| vU64 (value : Nat)
| vI64 (value : Int)
| vI32 (value : Int)
| vU8 (value : Nat)
| vU32 (value : Nat)
| vF64 (value : Float)
| vStr (s : String)
| vBytes (bytes : List Nat)
| vU64Seq (words : List Nat)
| vStruct (field_count : Nat)

/-- One field of an eventheader event. -/
structure UeField where
  name : String
  value : UeFieldValue
  format : FieldFormat
  tag : Nat

/-- eventheader_dynamic::EventBuilder. -/
structure UeEventBuilder where
  name : String
  op : Opcode
  fields : List UeField

/-- EventBuilder::reset (eventheader: name and tag only). -/
def UeEventBuilder.reset (_eb : UeEventBuilder) (name : String) (_tag : Nat) :
    UeEventBuilder :=
  ⟨name, .Info, []⟩

/-- EventBuilder::opcode. -/
def UeEventBuilder.opcode (eb : UeEventBuilder) (o : Opcode) : UeEventBuilder :=
  { eb with op := o }

/-- Append one field, as every add call does. -/
def UeEventBuilder.addField (eb : UeEventBuilder) (f : UeField) : UeEventBuilder :=
  { eb with fields := eb.fields ++ [f] }

/-- EventBuilder::add_value with a u64 argument. -/
def UeEventBuilder.add_value_u64 (eb : UeEventBuilder) (name : String)
    (value : Nat) (format : FieldFormat) (tag : Nat) : UeEventBuilder :=
  eb.addField ⟨name, .vU64 value, format, tag⟩

/-- EventBuilder::add_value with an i64 argument. -/
def UeEventBuilder.add_value_i64 (eb : UeEventBuilder) (name : String)
    (value : Int) (format : FieldFormat) (tag : Nat) : UeEventBuilder :=
  eb.addField ⟨name, .vI64 value, format, tag⟩

/-- EventBuilder::add_value with an i32 argument. -/
def UeEventBuilder.add_value_i32 (eb : UeEventBuilder) (name : String)
    (value : Int) (format : FieldFormat) (tag : Nat) : UeEventBuilder :=
  eb.addField ⟨name, .vI32 value, format, tag⟩

/-- EventBuilder::add_value with a u8 argument. -/
def UeEventBuilder.add_value_u8 (eb : UeEventBuilder) (name : String)
    (value : Nat) (format : FieldFormat) (tag : Nat) : UeEventBuilder :=
  eb.addField ⟨name, .vU8 value, format, tag⟩

/-- EventBuilder::add_value with a u32 argument. -/
def UeEventBuilder.add_value_u32 (eb : UeEventBuilder) (name : String)
    (value : Nat) (format : FieldFormat) (tag : Nat) : UeEventBuilder :=
  eb.addField ⟨name, .vU32 value, format, tag⟩

/-- EventBuilder::add_value with an f64 argument. -/
def UeEventBuilder.add_value_f64 (eb : UeEventBuilder) (name : String)
    (value : Float) (format : FieldFormat) (tag : Nat) : UeEventBuilder :=
  eb.addField ⟨name, .vF64 value, format, tag⟩

/-- EventBuilder::add_str with a string argument. -/
def UeEventBuilder.add_str (eb : UeEventBuilder) (name : String)
    (value : String) (format : FieldFormat) (tag : Nat) : UeEventBuilder :=
  eb.addField ⟨name, .vStr value, format, tag⟩

/-- EventBuilder::add_str with a raw byte-array argument. -/
def UeEventBuilder.add_str_bytes (eb : UeEventBuilder) (name : String)
    (value : List Nat) (format : FieldFormat) (tag : Nat) : UeEventBuilder :=
  eb.addField ⟨name, .vBytes value, format, tag⟩

/-- EventBuilder::add_value_sequence with a u64 slice. -/
def UeEventBuilder.add_value_sequence (eb : UeEventBuilder) (name : String)
    (words : List Nat) (format : FieldFormat) (tag : Nat) : UeEventBuilder :=
  eb.addField ⟨name, .vU64Seq words, format, tag⟩

/-- EventBuilder::add_struct. -/
def UeEventBuilder.add_struct (eb : UeEventBuilder) (name : String)
    (field_count : Nat) (tag : Nat) : UeEventBuilder :=
  eb.addField ⟨name, .vStruct field_count, .Default, tag⟩

/-- src/user_events.rs ValueTypes: the staging union filled by ValueVisitor. -/
inductive ValueTypes
| None
| v_u64 (value : Nat)
| v_i64 (value : Int)
| v_u128 (value : Nat)
| v_i128 (value : Int)
| v_f64 (value : Float)
| v_bool (value : Bool)
| v_str (value : String)
| v_char (value : Char)

/-- src/user_events.rs ValueVisitor: each visit method stores the value into
    the staging union; a value whose visit errors leaves the initial None. -/
def ueVisitValue : KvValue → ValueTypes
| .vBool b => .v_bool b
| .vU64 n => .v_u64 n
| .vI64 i => .v_i64 i
| .vU128 n => .v_u128 n
| .vI128 i => .v_i128 i
| .vF64 x => .v_f64 x
| .vStr s => .v_str s
| .vBorrowedStr s => .v_str s
| .vChar c => .v_char c
| .vOther display => .v_str display
| .vErr => .None

/-- src/user_events.rs KvVisitor::visit_pair: visit the value once into the
    staging union, then write at most one field from it (None writes none). -/
def ueVisitPair (eb : UeEventBuilder) (key : String) (v : KvValue) :
    UeEventBuilder :=
  match ueVisitValue v with
  | .None => eb
  | .v_bool value => eb.add_value_i32 key (if value then 1 else 0) .Boolean 0
  | .v_u64 value => eb.add_value_u64 key value .Default 0
  | .v_i64 value => eb.add_value_i64 key value .SignedInt 0
  | .v_u128 value => eb.add_value_sequence key (u128_words value) .HexInt 0
  | .v_i128 value => eb.add_value_sequence key (i128_words value) .HexInt 0
  | .v_f64 value => eb.add_value_f64 key value .Float 0
  | .v_char value => eb.add_value_u8 key (value.toNat % 256) .String8 0
  | .v_str value => eb.add_str key value .Default 0

/-- eventheader_dynamic::EventSet: one cached (level, keyword) registration
    and its kernel-tracked enablement. -/
structure EventSet where
  level : Nat
  keyword : Nat
  enabled : Bool
deriving DecidableEq

/-- eventheader_dynamic::Provider::find_set. -/
def find_set (provider : List EventSet) (level : Nat) (keyword : Nat) :
    Option EventSet :=
  provider.find? (fun es => es.level == level && es.keyword == keyword)

/-- src/logger.rs ProviderWrapper::enabled, Linux branch: locate a previously
    registered event-set; none registered means disabled. -/
def ue_enabled (provider : List EventSet) (level : Nat) (keyword : Nat) : Bool :=
  match find_set provider level keyword with
  | some es => es.enabled
  | none => false

/-- eventheader_dynamic::Provider::register_set: reuse an existing set or
    append a fresh one (a fresh set has no listener yet, so it is disabled). -/
def register_set (provider : List EventSet) (level : Nat) (keyword : Nat) :
    EventSet × List EventSet :=
  match find_set provider level keyword with
  | some es => (es, provider)
  | none =>
    let es : EventSet := ⟨level, keyword, false⟩
    (es, provider ++ [es])

/-- src/user_events.rs ProviderWrapper::write_record.  Returns the
    (event, event-set) pairs handed to EventBuilder::write plus the provider's
    event-set table after the call. -/
def ue_write_record (provider : List EventSet) (feats : Features)
    (json_encode : List (String × KvValue) → Option String)
    (timestamp : SystemTime) (event_name : String) (keyword : Nat)
    (record : Record) (exporter_config : ExporterConfig) (ctx : SpanContext) :
    List (UeEventBuilder × EventSet) × List EventSet :=
  let level := map_level record.level
  if !(ue_enabled provider level keyword) then ([], provider) else
  let esp :=
    match find_set provider level keyword with
    | some es => (es, provider)
    | none => register_set provider level keyword
  let es := esp.1
  let provider := esp.2
  let eb : UeEventBuilder := ⟨"", .Info, []⟩
  if !exporter_config.common_schema then
    let eb := (eb.reset event_name 0).opcode .Info
    let eb := eb.add_value_u64 "time" timestamp.unix_secs .Time 0
    let payload := record.args
    let eb := eb.add_str "Payload" payload .Default 0
    let eb :=
      if feats.kv_unstable || feats.kv_unstable_json then
        if feats.kv_unstable_json && exporter_config.json then
          match json_encode record.key_values with
          | some json => eb.add_str "Keys / Values" json .Default 0
          | none => eb
        else
          record.key_values.foldl (fun e kv => ueVisitPair e kv.1 kv.2) eb
      else eb
    let eb :=
      match record.module_path with
      | some module_path => eb.add_str "Module Path" module_path .Default 0
      | none => eb
    let eb :=
      match record.file with
      | some file =>
        let eb := eb.add_str "File" file .Default 0
        match record.line with
        | some line => eb.add_value_u32 "Line" line .Default 0
        | none => eb
      | none => eb
    ([(eb, es)], provider)
  else
    let eb := (eb.reset event_name 0).opcode .Info
    let (parta_field_count, span_id, trace_id) :=
      if feats.spans then
        let ids := get_active_ids ctx
        ((2 : Nat), (some ids.1 : Option (List Nat)), (some ids.2 : Option (List Nat)))
      else
        ((1 : Nat), (none : Option (List Nat)), (none : Option (List Nat)))
    let eb := eb.add_value_i32 "__csver__" 0x0401 .SignedInt 0
    let eb := eb.add_struct "PartA" parta_field_count 0
    let time : String := toRfc3339 timestamp
    let eb := eb.add_str "time" time .Default 0
    let eb :=
      match trace_id, span_id with
      | some tid, some sid =>
        ((eb.add_struct "ext_dt" 2 0).add_str_bytes "traceId" tid .Default 0).add_str_bytes
          "spanId" sid .Default 0
      | _, _ => eb
    let eb := eb.add_struct "PartB" 5 0
    let eb := eb.add_str "_typeName" "Log" .Default 0
    let eb := eb.add_str "name" event_name .Default 0
    let eb := eb.add_str "eventTime" (toRfc3339 timestamp) .Default 0
    let eb := eb.add_value_u8 "severityNumber" record.level.toU8 .Default 0
    let eb := eb.add_str "severityText" record.level.as_str .Default 0
    let eb := eb.add_struct "PartC" 1 0
    let eb := eb.add_str "Payload" record.args .Default 0
    ([(eb, es)], provider)

/-- src/logger.rs ProviderWrapper: the registry entry.  The model records the
    construction parameters of ProviderWrapper::new (which also registers the
    provider with the OS subsystem; registrations are counted by the caller). -/
structure ProviderWrapper where
  name : String
  id : Guid
  group : ProviderGroup
deriving DecidableEq

/-- The PROVIDER_CACHE table: name to provider. -/
abbrev ProviderCache := List (String × ProviderWrapper)

/-- HashMap::get on the cache. -/
def cache_get (cache : ProviderCache) (name : String) : Option ProviderWrapper :=
  cache.lookup name

/-- src/logger.rs create_provider (inside get_or_create_provider): runs under
    the exclusive write lock; picks identity from the target when it is
    non-empty, otherwise from the configured defaults; re-checks the cache
    before creating; returns the provider, the table afterwards, and how many
    OS registrations were performed (ProviderWrapper::new registers once). -/
def create_provider (target_provider_name : String)
    (exporter_config : ExporterConfig) (guard : ProviderCache) :
    ProviderWrapper × ProviderCache × Nat :=
  let idty :=
    if !target_provider_name.isEmpty then
      (target_provider_name, Guid.fromName target_provider_name,
        ProviderGroup.Unset)
    else
      (exporter_config.default_provider_name,
        exporter_config.default_provider_id,
        exporter_config.default_provider_group)
  let provider_name := idty.1
  let provider_id := idty.2.1
  let provider_group := idty.2.2
  match cache_get guard provider_name with
  | some provider => (provider, guard, 0)
  | none =>
    let provider : ProviderWrapper := ⟨provider_name, provider_id, provider_group⟩
    (provider, (provider_name, provider) :: guard, 1)

/-- src/logger.rs get_provider (inside get_or_create_provider): the read-lock
    lookup. -/
def get_provider_cached (cache : ProviderCache) (provider_name : String) :
    Option ProviderWrapper :=
  cache_get cache provider_name

/-- src/logger.rs EtwEventHeaderLogger::get_or_create_provider.  Note the
    source computes the read-path lookup key as the target name when the
    target is empty and the configured default name otherwise; this model
    reproduces that faithfully. -/
def get_or_create_provider (exporter_config : ExporterConfig)
    (target_provider_name : String) (cache : ProviderCache) :
    ProviderWrapper × ProviderCache × Nat :=
  let provider_name :=
    if target_provider_name.isEmpty then target_provider_name
    else exporter_config.default_provider_name
  match get_provider_cached cache provider_name with
  | some provider => (provider, cache, 0)
  | none => create_provider target_provider_name exporter_config cache

/-- src/logger.rs EtwEventHeaderLogger::log on the ETW backend: resolve the
    provider from the record's target, then encode and write.  The source call
    site passes (timestamp, record, config); event name and keyword are
    modelled as the provider name and 0, which no claim depends on. -/
def logger_log (exporter_config : ExporterConfig)
    (os_enabled : Nat → Nat → Bool) (feats : Features)
    (json_encode : List (String × KvValue) → Option String)
    (timestamp : SystemTime) (ctx : SpanContext) (cache : ProviderCache)
    (record : Record) : ProviderCache × List EventBuilder :=
  let pcr := get_or_create_provider exporter_config record.target cache
  let provider := pcr.1
  let cache := pcr.2.1
  (cache, etw_write_record os_enabled feats json_encode timestamp provider.name 0
    record exporter_config ctx)

/-- The field names of a finished ETW event, in write order. -/
def eventFieldNames (eb : EventBuilder) : List String :=
  eb.fields.map EventField.name

/-- The value of the first field with the given name, if any. -/
def findFieldValue (eb : EventBuilder) (name : String) : Option FieldValue :=
  (eb.fields.find? (fun f => f.name == name)).map EventField.value

/-- The text of a string field with the given name. -/
def strFieldAt (eb : EventBuilder) (name : String) : Option String :=
  match findFieldValue eb name with
  | some (.vStr8 s) => some s
  | _ => none

/-- The declared field count of a struct field with the given name. -/
def structCountAt (eb : EventBuilder) (name : String) : Option Nat :=
  match findFieldValue eb name with
  | some (.vStruct n) => some n
  | _ => none

/-- The raw bytes of a byte-array field with the given name. -/
def bytesAt (eb : EventBuilder) (name : String) : Option (List Nat) :=
  match findFieldValue eb name with
  | some (.vBytes bs) => some bs
  | _ => none

/-- The key-value field names the ETW native encoder emits for a record, per
    feature/config mode (the per-key visitation fields, or the single combined
    JSON field, or nothing when the kv features are compiled out). -/
def etwKvFieldNames (feats : Features) (exporter_config : ExporterConfig)
    (json_encode : List (String × KvValue) → Option String)
    (kvs : List (String × KvValue)) : List String :=
  if feats.kv_unstable || feats.kv_unstable_json then
    if feats.kv_unstable_json && exporter_config.json then
      match json_encode kvs with
      | some _ => ["Keys / Values"]
      | none => []
    else kvs.filterMap (fun kv => (etwVisitField kv.1 kv.2).map EventField.name)
  else []

/-- A configuration as produced by new_logger("App").install(). -/
def cfgApp : ExporterConfig :=
  ⟨"App", Guid.fromName "App", .Unset, false, false⟩

/-- cfgApp with Common-Schema emission enabled. -/
def cfgAppCS : ExporterConfig :=
  ⟨"App", Guid.fromName "App", .Unset, false, true⟩

/-- kv_unstable feature on, json and spans features off. -/
def featsDefault : Features := ⟨true, false, false⟩

/-- kv_unstable and spans features on. -/
def featsSpans : Features := ⟨true, false, true⟩

/-- A serde stand-in that never produces a JSON string (unused in the modes
    the concrete scenarios exercise). -/
def jsonNone : List (String × KvValue) → Option String := fun _ => none

/-- A concrete timestamp. -/
def ts0 : SystemTime := ⟨2024, 5, 17, 10, 30, 15, 250, 1715941815⟩

/-- No active span: span_id is SpanId::INVALID. -/
def ctxNone : SpanContext := ⟨0, 0⟩

/-- A concrete warning record with target "Real". -/
def rec0 : Record :=
  ⟨.Warn, "Real", "My warning message", [], none, none, none⟩

/-- The key-value fields the ETW native encoder emits for a record, per
    feature/config mode (field-level counterpart of etwKvFieldNames). -/
def etwKvFields (feats : Features) (exporter_config : ExporterConfig)
    (json_encode : List (String × KvValue) → Option String)
    (kvs : List (String × KvValue)) : List EventField :=
  if feats.kv_unstable || feats.kv_unstable_json then
    if feats.kv_unstable_json && exporter_config.json then
      match json_encode kvs with
      | some json => [⟨"Keys / Values", .vStr8 json, .Json, 0⟩]
      | none => []
    else kvs.filterMap (fun kv => etwVisitField kv.1 kv.2)
  else []

/-- A record with a file but no line number. -/
def recFileNoLine : Record :=
  ⟨.Info, "t", "m", [], none, some "main.rs", none⟩

/-- A record whose middle key-value reports a visitation error. -/
def recBadKey : Record :=
  ⟨.Info, "t", "m", [("a", .vU64 1), ("bad", .vErr), ("b", .vBool true)],
    none, none, none⟩

/-- recBadKey with the erroring key removed. -/
def recBadKeyDropped : Record :=
  ⟨.Info, "t", "m", [("a", .vU64 1), ("b", .vBool true)], none, none, none⟩

/-! Helper lemmas. -/

/-- Folding visit_pair over the key-values appends exactly the fields of the
    successfully visited values, in order; everything else in the builder is
    untouched. -/
theorem foldl_etwVisitPair_eq (kvs : List (String × KvValue)) (eb : EventBuilder) :
    kvs.foldl (fun e kv => etwVisitPair e kv.1 kv.2) eb
      = { eb with fields := eb.fields ++ kvs.filterMap (fun kv => etwVisitField kv.1 kv.2) } := by
  induction kvs generalizing eb with
  | nil => simp
  | cons hd tl ih =>
    simp only [List.foldl_cons, List.filterMap_cons]
    cases h : etwVisitField hd.1 hd.2 with
    | none =>
      have hp : etwVisitPair eb hd.1 hd.2 = eb := by
        unfold etwVisitPair; rw [h]
      rw [hp, ih]
    | some f =>
      have hp : etwVisitPair eb hd.1 hd.2 = eb.addField f := by
        unfold etwVisitPair; rw [h]
      rw [hp, ih]
      simp [EventBuilder.addField]

/-- The native (non-Common-Schema) result of etw_write_record, as one event
    whose field list is laid out explicitly. -/
theorem etw_write_record_native_eq (os_enabled : Nat → Nat → Bool)
    (feats : Features) (json_encode : List (String × KvValue) → Option String)
    (timestamp : SystemTime) (event_name : String) (keyword : Nat)
    (record : Record) (exporter_config : ExporterConfig) (ctx : SpanContext)
    (hcs : exporter_config.common_schema = false)
    (hen : os_enabled (map_level record.level) keyword = true) :
    etw_write_record os_enabled feats json_encode timestamp event_name keyword
        record exporter_config ctx
      = [⟨event_name, map_level record.level, keyword, .Info,
          ⟨"time", .vSystemtime (win32SystemTime timestamp), .DateTimeUtc, 0⟩ ::
          ⟨"Payload", .vStr8 record.args, .Utf8, 0⟩ ::
          (etwKvFields feats exporter_config json_encode record.key_values
            ++ (match record.module_path with
                | some m => [⟨"Module Path", .vStr8 m, .Utf8, 0⟩]
                | none => [])
            ++ (match record.file with
                | some f => ⟨"File", .vStr8 f, .Utf8, 0⟩ ::
                    (match record.line with
                     | some l => [⟨"Line", .vU32 l, .Unsigned, 0⟩]
                     | none => [])
                | none => []))⟩] := by
  cases hg : (feats.kv_unstable || feats.kv_unstable_json) <;>
  cases hj : (feats.kv_unstable_json && exporter_config.json) <;>
  cases hm : record.module_path <;>
  cases hf : record.file <;>
  cases hl : record.line <;>
  cases hjs : json_encode record.key_values <;>
  simp [etw_write_record, etwKvFields, hen, hcs, hg, hj, hm, hf, hl, hjs,
    foldl_etwVisitPair_eq, EventBuilder.reset, EventBuilder.opcode,
    EventBuilder.add_systemtime, EventBuilder.add_str8, EventBuilder.add_u32,
    EventBuilder.addField]

/-- The names of the key-value fields. -/
theorem etwKvFields_map_name (feats : Features) (exporter_config : ExporterConfig)
    (json_encode : List (String × KvValue) → Option String)
    (kvs : List (String × KvValue)) :
    (etwKvFields feats exporter_config json_encode kvs).map EventField.name
      = etwKvFieldNames feats exporter_config json_encode kvs := by
  unfold etwKvFields etwKvFieldNames
  cases hg : (feats.kv_unstable || feats.kv_unstable_json) <;>
  cases hj : (feats.kv_unstable_json && exporter_config.json) <;>
  cases hjs : json_encode kvs <;>
  simp [List.map_filterMap]

/-! Claim theorems. -/

/-- C6: map_level maps facade levels to native levels exactly per the fixed
    table: Error to Error, Warn to Warning, Info to Informational, Debug to
    Verbose, and Trace to Verbose + 1, one increment past Debug's native
    value rather than collapsed onto it. -/
theorem c6_level_mapping :
    map_level .Error = TlLevel.Error.as_int ∧
    map_level .Warn = TlLevel.Warning.as_int ∧
    map_level .Info = TlLevel.Informational.as_int ∧
    map_level .Debug = TlLevel.Verbose.as_int ∧
    map_level .Trace = TlLevel.Verbose.as_int + 1 ∧
    map_level .Trace = map_level .Debug + 1 := by
  decide

/-- C1 (code evaluation): with Common-Schema emission enabled, an enabled log
    call hands exactly one event to the provider's write entry point, and that
    event is the Common-Schema one — the platform-native event is skipped, so
    the buffers are not emitted in addition to each other. -/
theorem c1_common_schema_replaces_native :
    (etw_write_record (fun _ _ => true) featsDefault jsonNone ts0 "Event" 0 rec0
        cfgAppCS ctxNone).map eventFieldNames
      = [["__csver__", "PartA", "time", "PartB", "_typeName", "name",
          "eventTime", "severityNumber", "severityText", "PartC", "Payload"]] := by
  rfl

/-- C2 (code evaluation): once the cache holds the configured default name
    "App", a first-time get_or_create for target "Real" returns the "App"
    provider, performs zero OS registrations and leaves no "Real" entry,
    because the read path looks up the default name for a non-empty target. -/
theorem c2_read_path_uses_default_name :
    (get_or_create_provider cfgApp "Real" (get_or_create_provider cfgApp "" []).2.1).1
        = ⟨"App", Guid.fromName "App", ProviderGroup.Unset⟩ ∧
    (get_or_create_provider cfgApp "Real" (get_or_create_provider cfgApp "" []).2.1).2.2 = 0 ∧
    cache_get (get_or_create_provider cfgApp "Real"
        (get_or_create_provider cfgApp "" []).2.1).2.1 "Real" = none := by
  exact ⟨rfl, rfl, rfl⟩

/-- C3 (code evaluation): compiled with the spans feature but with no active
    span (span_id = 0, the invalid id), the Common-Schema event still declares
    PartA with field count 2 and writes the ext_dt extension with an all-zero
    traceId and spanId. -/
theorem c3_parta_two_with_zeroed_ids :
    (etw_write_record (fun _ _ => true) featsSpans jsonNone ts0 "Event" 0 rec0
        cfgAppCS ctxNone).map
        (fun e => (structCountAt e "PartA", bytesAt e "traceId", bytesAt e "spanId"))
      = [(some 2, some (List.replicate 32 0), some (List.replicate 16 0))] := by
  rfl

/-- C4: after installing with default provider name "App" and logging a
    warning whose target is "Real", the registry holds an entry keyed "Real"
    (the explicit non-empty target overrides the configured default), and the
    emitted native event's Payload field equals the record's formatted
    message text. -/
theorem c4_target_overrides_default_and_payload :
    cache_get (logger_log cfgApp (fun _ _ => true) featsDefault jsonNone ts0
        ctxNone [] rec0).1 "Real"
        = some ⟨"Real", Guid.fromName "Real", ProviderGroup.Unset⟩ ∧
    (logger_log cfgApp (fun _ _ => true) featsDefault jsonNone ts0 ctxNone []
        rec0).2.map (fun e => strFieldAt e "Payload")
      = [some "My warning message"] := by
  exact ⟨rfl, rfl⟩

/-- C5: for every enabled record the native encoder writes fields in exactly
    the order time, Payload, key-value fields, Module Path if present, File if
    present, and Line only if both file and line are present, omitting absent
    fields entirely; with no key-values, module path or file this is exactly
    [time, Payload], and with a file but no line it ends [..., File]. -/
theorem c5_native_field_order (os_enabled : Nat → Nat → Bool) (feats : Features)
    (json_encode : List (String × KvValue) → Option String)
    (timestamp : SystemTime) (event_name : String) (keyword : Nat)
    (record : Record) (exporter_config : ExporterConfig) (ctx : SpanContext)
    (hcs : exporter_config.common_schema = false)
    (hen : os_enabled (map_level record.level) keyword = true) :
    (etw_write_record os_enabled feats json_encode timestamp event_name keyword
        record exporter_config ctx).map eventFieldNames
      = [["time", "Payload"]
          ++ etwKvFieldNames feats exporter_config json_encode record.key_values
          ++ (match record.module_path with
              | some _ => ["Module Path"]
              | none => [])
          ++ (match record.file with
              | some _ => "File" :: (match record.line with
                  | some _ => ["Line"]
                  | none => [])
              | none => [])] := by
  rw [etw_write_record_native_eq os_enabled feats json_encode timestamp
    event_name keyword record exporter_config ctx hcs hen]
  cases hm : record.module_path <;>
  cases hf : record.file <;>
  cases hl : record.line <;>
  simp [eventFieldNames, etwKvFields_map_name, hm, hf, hl]

/-- C5 witness: a concrete record with a file but no line yields exactly
    [time, Payload, File]. -/
theorem c5_native_field_order_witness :
    cfgApp.common_schema = false ∧
    (fun _ _ => true : Nat → Nat → Bool) (map_level recFileNoLine.level) 0 = true ∧
    (etw_write_record (fun _ _ => true) featsDefault jsonNone ts0 "Event" 0
        recFileNoLine cfgApp ctxNone).map eventFieldNames
      = [["time", "Payload", "File"]] := by
  exact ⟨rfl, rfl, c5_native_field_order (fun _ _ => true) featsDefault jsonNone
    ts0 "Event" 0 recFileNoLine cfgApp ctxNone rfl rfl⟩

/-- C9: key-value visitation failures are local and non-fatal: each key is
    visited exactly once (visit_pair calls value.visit once per pair), and a
    key whose visit reports an error only loses its own field — the event
    equals the one for the record without that key, and exactly one event is
    still handed to the provider's write entry point. -/
theorem c9_visitation_error_is_local (os_enabled : Nat → Nat → Bool)
    (feats : Features) (json_encode : List (String × KvValue) → Option String)
    (timestamp : SystemTime) (event_name : String) (keyword : Nat)
    (record : Record) (exporter_config : ExporterConfig) (ctx : SpanContext)
    (pre post : List (String × KvValue)) (k : String)
    (hcs : exporter_config.common_schema = false)
    (hen : os_enabled (map_level record.level) keyword = true)
    (hkv : record.key_values = pre ++ (k, KvValue.vErr) :: post)
    (hmode : (feats.kv_unstable_json && exporter_config.json) = false) :
    etw_write_record os_enabled feats json_encode timestamp event_name keyword
        record exporter_config ctx
      = etw_write_record os_enabled feats json_encode timestamp event_name
          keyword { record with key_values := pre ++ post } exporter_config ctx
    ∧ (etw_write_record os_enabled feats json_encode timestamp event_name
        keyword record exporter_config ctx).length = 1 := by
  have h1 := etw_write_record_native_eq os_enabled feats json_encode timestamp
    event_name keyword record exporter_config ctx hcs hen
  have h2 := etw_write_record_native_eq os_enabled feats json_encode timestamp
    event_name keyword { record with key_values := pre ++ post }
    exporter_config ctx hcs hen
  constructor
  · rw [h1, h2]
    simp only [hkv]
    cases hg : (feats.kv_unstable || feats.kv_unstable_json)
    · simp [etwKvFields, hg]
    · simp [etwKvFields, hg, hmode, List.filterMap_append, etwVisitField]
  · rw [h1]
    rfl

/-- C9 witness: a concrete record whose middle key errors encodes identically
    to the record without that key, and one event is still written. -/
theorem c9_visitation_error_is_local_witness :
    cfgApp.common_schema = false ∧
    (fun _ _ => true : Nat → Nat → Bool) (map_level recBadKey.level) 0 = true ∧
    recBadKey.key_values = [("a", .vU64 1)] ++ ("bad", KvValue.vErr) :: [("b", .vBool true)] ∧
    (featsDefault.kv_unstable_json && cfgApp.json) = false ∧
    (etw_write_record (fun _ _ => true) featsDefault jsonNone ts0 "Event" 0
        recBadKey cfgApp ctxNone
      = etw_write_record (fun _ _ => true) featsDefault jsonNone ts0 "Event" 0
          recBadKeyDropped cfgApp ctxNone
    ∧ (etw_write_record (fun _ _ => true) featsDefault jsonNone ts0 "Event" 0
        recBadKey cfgApp ctxNone).length = 1) := by
  exact ⟨rfl, rfl, rfl, rfl,
    c9_visitation_error_is_local (fun _ _ => true) featsDefault jsonNone ts0
      "Event" 0 recBadKey cfgApp ctxNone [("a", .vU64 1)] [("b", .vBool true)]
      "bad" rfl rfl rfl rfl⟩

/-- C7: on the Linux backend, when no event-set has been registered for a
    (level, keyword) combination, enabled() is false; and whenever the
    provider is not enabled for a record's (level, keyword), write_record
    performs no field encoding and hands nothing to the sink. -/
theorem c7_disabled_writes_nothing (provider : List EventSet)
    (level keyword : Nat) (feats : Features)
    (json_encode : List (String × KvValue) → Option String)
    (timestamp : SystemTime) (event_name : String) (record : Record)
    (exporter_config : ExporterConfig) (ctx : SpanContext) :
    (find_set provider level keyword = none →
      ue_enabled provider level keyword = false) ∧
    (ue_enabled provider (map_level record.level) keyword = false →
      (ue_write_record provider feats json_encode timestamp event_name keyword
          record exporter_config ctx).1 = []) := by
  constructor
  · intro h
    simp [ue_enabled, h]
  · intro h
    simp [ue_write_record, h]

/-- C7 witness: a provider with no registered event-sets is disabled for
    (Informational, 0) and write_record hands nothing to the sink. -/
theorem c7_disabled_writes_nothing_witness :
    (find_set [] 4 0 = none ∧ ue_enabled [] 4 0 = false) ∧
    (ue_enabled [] (map_level rec0.level) 0 = false ∧
      (ue_write_record [] featsDefault jsonNone ts0 "Event" 0 rec0 cfgApp
          ctxNone).1 = []) := by
  refine ⟨⟨rfl, ?_⟩, ⟨rfl, ?_⟩⟩
  · exact (c7_disabled_writes_nothing [] 4 0 featsDefault jsonNone ts0 "Event"
      rec0 cfgApp ctxNone).1 rfl
  · exact (c7_disabled_writes_nothing [] (map_level rec0.level) 0 featsDefault
      jsonNone ts0 "Event" rec0 cfgApp ctxNone).2 rfl

/-- C10: on first use, a non-empty target yields a provider named after the
    target, with id Guid::from_name(target) and group Unset; the configured
    default name, id and group are used only when the target is empty. -/
theorem c10_identity_selection :
    (∀ (target : String) (exporter_config : ExporterConfig)
        (cache : ProviderCache),
      target ≠ "" → cache_get cache target = none →
      create_provider target exporter_config cache
        = (⟨target, Guid.fromName target, ProviderGroup.Unset⟩,
            (target, ⟨target, Guid.fromName target, ProviderGroup.Unset⟩) :: cache,
            1)) ∧
    (∀ (exporter_config : ExporterConfig) (cache : ProviderCache),
      cache_get cache exporter_config.default_provider_name = none →
      create_provider "" exporter_config cache
        = (⟨exporter_config.default_provider_name,
              exporter_config.default_provider_id,
              exporter_config.default_provider_group⟩,
            (exporter_config.default_provider_name,
              ⟨exporter_config.default_provider_name,
                exporter_config.default_provider_id,
                exporter_config.default_provider_group⟩) :: cache,
            1)) := by
  constructor
  · intro target exporter_config cache hne hmiss
    have he : target.isEmpty = false := by
      cases h : target.isEmpty
      · rfl
      · exact absurd ((String.isEmpty_iff target).mp h) hne
    simp [create_provider, he, hmiss]
  · intro exporter_config cache hmiss
    have h0 : "".isEmpty = true := rfl
    simp [create_provider, h0, hmiss]

/-- C10 witness: first use of target "Real" under the "App" defaults creates
    the provider ("Real", from_name "Real", Unset). -/
theorem c10_identity_selection_witness :
    "Real" ≠ "" ∧
    cache_get [] "Real" = none ∧
    create_provider "Real" cfgApp []
      = (⟨"Real", Guid.fromName "Real", ProviderGroup.Unset⟩,
          [("Real", ⟨"Real", Guid.fromName "Real", ProviderGroup.Unset⟩)], 1) := by
  exact ⟨by decide, rfl, c10_identity_selection.1 "Real" cfgApp [] (by decide) rfl⟩

/-- leWord of a cons. -/
theorem leWord_cons (b : Nat) (bs : List Nat) :
    leWord (b :: bs) = b + 256 * leWord bs := rfl

/-- Recombining the little-endian bytes of the low 8*k bits of n yields
    n mod 256^k. -/
theorem leWord_leBytes (k : Nat) : ∀ n : Nat, leWord (leBytes k n) = n % 256 ^ k := by
  induction k with
  | zero =>
    intro n
    simp [leBytes, leWord, Nat.mod_one]
  | succ k ih =>
    intro n
    rw [show leBytes (k + 1) n = n % 256 :: leBytes k (n / 256) from rfl,
      leWord_cons, ih, pow_succ' 256 k, Nat.mod_mul]

/-- The first j little-endian bytes of the low 8*(j+k) bits are the
    little-endian bytes of the low 8*j bits. -/
theorem leBytes_take (j k : Nat) : ∀ n : Nat, (leBytes (j + k) n).take j = leBytes j n := by
  induction j with
  | zero =>
    intro n
    simp [leBytes]
  | succ j ih =>
    intro n
    have h1 : j + 1 + k = j + k + 1 := by omega
    rw [h1, show leBytes (j + k + 1) n = n % 256 :: leBytes (j + k) (n / 256) from rfl,
      List.take_succ_cons, ih,
      show leBytes (j + 1) n = n % 256 :: leBytes j (n / 256) from rfl]

/-- Dropping the first j little-endian bytes leaves the bytes of the value
    shifted right by 8*j bits. -/
theorem leBytes_drop (j k : Nat) : ∀ n : Nat, (leBytes (j + k) n).drop j = leBytes k (n / 256 ^ j) := by
  induction j with
  | zero =>
    intro n
    simp [leBytes]
  | succ j ih =>
    intro n
    have h1 : j + 1 + k = j + k + 1 := by omega
    rw [h1, show leBytes (j + k + 1) n = n % 256 :: leBytes (j + k) (n / 256) from rfl,
      List.drop_succ_cons, ih, Nat.div_div_eq_div_mul, pow_succ' 256 j]

/-- Unsigned half of the 128-bit round trip. -/
theorem decode_u128_of_lt (n : Nat) (hn : n < 2 ^ 128) :
    decode_two_words_le (u128_words n) = n := by
  unfold u128_words u128_to_le_bytes
  rw [show (16 : Nat) = 8 + 8 from rfl, leBytes_take 8 8 n, leBytes_drop 8 8 n]
  show leWord (leBytes 8 n) + 2 ^ 64 * leWord (leBytes 8 (n / 256 ^ 8)) = n
  rw [leWord_leBytes 8 n, leWord_leBytes 8 (n / 256 ^ 8)]
  have h8 : (256 : Nat) ^ 8 = 2 ^ 64 := by norm_num
  rw [h8]
  have hdiv : n / 2 ^ 64 < 2 ^ 64 := by
    have h2 : (2 : Nat) ^ 64 * 2 ^ 64 = 2 ^ 128 := by norm_num
    exact (Nat.div_lt_iff_lt_mul (by positivity)).mpr (by rw [h2]; exact hn)
  rw [Nat.mod_eq_of_lt hdiv]
  exact Nat.mod_add_div n (2 ^ 64)

/-- decode_two_words_le_signed with its let body exposed. -/
theorem decode_two_words_le_signed_eq (ws : List Nat) :
    decode_two_words_le_signed ws
      = if decode_two_words_le ws < 2 ^ 127 then (decode_two_words_le ws : Int)
        else (decode_two_words_le ws : Int) - 2 ^ 128 := rfl

/-- C8: encoding a 128-bit value as its little-endian byte representation
    reinterpreted as two 64-bit words and decoding the word pair back as
    little-endian reproduces the value exactly, for every unsigned value
    below 2^128 and every signed value in the i128 range. -/
theorem c8_128bit_roundtrip :
    (∀ n : Nat, n < 2 ^ 128 → decode_two_words_le (u128_words n) = n) ∧
    (∀ i : Int, -(2 ^ 127) ≤ i → i < 2 ^ 127 →
      decode_two_words_le_signed (i128_words i) = i) := by
  constructor
  · exact decode_u128_of_lt
  · intro i h1 h2
    have hp127 : (0 : Int) < 2 ^ 127 := by positivity
    have h2P : ((2 : Int) ^ 128) = 2 * 2 ^ 127 := by ring
    have hpos : (0 : Int) < 2 ^ 128 := by positivity
    have he0 : 0 ≤ i % 2 ^ 128 := Int.emod_nonneg i (by positivity)
    have he1 : i % 2 ^ 128 < 2 ^ 128 := Int.emod_lt_of_pos i hpos
    have hmc : (((i % (2 : Int) ^ 128).toNat : Int)) = i % 2 ^ 128 :=
      Int.toNat_of_nonneg he0
    have hmlt : (i % (2 : Int) ^ 128).toNat < 2 ^ 128 := by
      have hc : (((i % (2 : Int) ^ 128).toNat : Int)) < 2 ^ 128 := by
        rw [hmc]; exact he1
      exact_mod_cast hc
    have hdec : decode_two_words_le (i128_words i)
        = (i % (2 : Int) ^ 128).toNat :=
      decode_u128_of_lt ((i % (2 : Int) ^ 128).toNat) hmlt
    rw [decode_two_words_le_signed_eq, hdec]
    rcases le_or_lt 0 i with h0 | h0
    · have hei : i % 2 ^ 128 = i := Int.emod_eq_of_lt h0 (by linarith)
      have hmi : (((i % (2 : Int) ^ 128).toNat : Int)) = i := by rw [hmc, hei]
      have hm127 : (i % (2 : Int) ^ 128).toNat < 2 ^ 127 := by
        have : (((i % (2 : Int) ^ 128).toNat : Int)) < 2 ^ 127 := by
          rw [hmi]; exact h2
        exact_mod_cast this
      rw [if_pos hm127, hmi]
    · have hei : i % 2 ^ 128 = i + 2 ^ 128 := by
        have hsh : (i + 2 ^ 128) % 2 ^ 128 = i % 2 ^ 128 := by
          have hsl := Int.add_mul_emod_self_left i (2 ^ 128) 1
          rw [mul_one] at hsl
          exact hsl
        rw [← hsh]
        exact Int.emod_eq_of_lt (by linarith) (by linarith)
      have hmi : (((i % (2 : Int) ^ 128).toNat : Int)) = i + 2 ^ 128 := by
        rw [hmc, hei]
      have hm127 : ¬ ((i % (2 : Int) ^ 128).toNat < 2 ^ 127) := by
        intro hlt
        have hci : (((i % (2 : Int) ^ 128).toNat : Int)) < 2 ^ 127 := by
          exact_mod_cast hlt
        rw [hmi] at hci
        linarith
      rw [if_neg hm127, hmi]
      ring

/-- C8 witness: the round trip at 2^64, at the maximum 128-bit value, and at
    the signed value -1. -/
theorem c8_128bit_roundtrip_witness :
    ((2 : Nat) ^ 64 < 2 ^ 128 ∧
      decode_two_words_le (u128_words (2 ^ 64)) = 2 ^ 64) ∧
    ((2 : Nat) ^ 128 - 1 < 2 ^ 128 ∧
      decode_two_words_le (u128_words (2 ^ 128 - 1)) = 2 ^ 128 - 1) ∧
    (-((2 : Int) ^ 127) ≤ -1 ∧ (-1 : Int) < 2 ^ 127 ∧
      decode_two_words_le_signed (i128_words (-1)) = -1) := by
  refine ⟨⟨by norm_num, c8_128bit_roundtrip.1 (2 ^ 64) (by norm_num)⟩,
    ⟨by norm_num, c8_128bit_roundtrip.1 (2 ^ 128 - 1) (by norm_num)⟩,
    ⟨by norm_num, by norm_num, c8_128bit_roundtrip.2 (-1) (by norm_num) (by norm_num)⟩⟩
